import Mathlib

/-!
Verification of the bpf-arena data-structure library against its
natural-language specification.  Shallow embedding: each C function of the
repository is translated into an executable Lean definition over explicit
state records; machine integers are Nat/Int with explicit wrapping where it
matters.  Serial executions are modelled by deterministic state passing;
lock-free retry loops whose observed shared values depend on other threads
are parameterised by an observation environment.
-/

/-! ## Result codes (enum ds_result, src/ds_api.h lines 38-45) -/

def DS_SUCCESS : Int := 0

def DS_ERROR_NOT_FOUND : Int := -1

def DS_ERROR_EXISTS : Int := -2

def DS_ERROR_NOMEM : Int := -3

def DS_ERROR_INVALID : Int := -4

def DS_ERROR_CORRUPT : Int := -5

/-- Modelled from the spec: the identifier DS_ERROR_BUSY is used by
src/include/ds_vyukhov.h, ds_bintree.h, ds_bst.h and ds_mpsc.h but is not
defined anywhere in the repository (enum ds_result in src/ds_api.h stops at
DS_ERROR_CORRUPT).  The spec lists BUSY as a member of the closed result
enumeration, so it is modelled as a distinct code continuing the enum. -/
def DS_ERROR_BUSY : Int := -6

/-- Modelled from the spec: the identifier DS_ERROR_FULL is used by
src/include/ds_folly_spsc.h and ds_ck_ring_spsc.h but is not defined
anywhere in the repository.  The spec lists FULL as a member of the closed
result enumeration, so it is modelled as a distinct code continuing the
enum. -/
def DS_ERROR_FULL : Int := -7

/-- The eight codes of the result enumeration named by the specification. -/
def dsResultEnum : List Int :=
  [DS_SUCCESS, DS_ERROR_NOT_FOUND, DS_ERROR_EXISTS, DS_ERROR_NOMEM,
   DS_ERROR_INVALID, DS_ERROR_CORRUPT, DS_ERROR_BUSY, DS_ERROR_FULL]

/-! ## Folly-style SPSC ring (src/include/ds_folly_spsc.h)

State of struct ds_spsc_queue_head: write_idx, read_idx, size and the
records array (a list of key/value pairs of length size). -/

structure Spsc where
  writeIdx : Nat
  readIdx : Nat
  size : Nat
  records : List (Nat × Nat)
deriving Repr, DecidableEq

/-- Index advance used by ds_spsc_insert and ds_spsc_delete: increment and
compare-and-reset against size (the code uses no modulo). -/
def spscNext (size i : Nat) : Nat :=
  if i + 1 ≥ size then 0 else i + 1

/-- ds_spsc_init (lines 78-106).  The outcome of bpf_arena_alloc for the
records array is abstracted by the allocOk flag; returns the result code and
the initialized head on success. -/
def ds_spsc_init (size : Nat) (allocOk : Bool) : Int × Option Spsc :=
  if size < 2 then (DS_ERROR_INVALID, none)
  else if allocOk = false then (DS_ERROR_NOMEM, none)
  else (DS_SUCCESS, some ⟨0, 0, size, List.replicate size (0, 0)⟩)

/-- ds_spsc_insert (lines 119-151): load write index, compute next, load
read index, write the record and publish, or report a full ring. -/
def ds_spsc_insert (h : Spsc) (key value : Nat) : Int × Spsc :=
  let w := h.writeIdx
  let next := spscNext h.size w
  let r := h.readIdx
  if next ≠ r then
    (DS_SUCCESS, { h with records := h.records.set w (key, value), writeIdx := next })
  else
    (DS_ERROR_FULL, h)

/-- ds_spsc_delete (lines 166-199).  The C function copies the record into
the data pointer only when it is non-NULL (the dataNull flag) but advances
read_idx and returns DS_SUCCESS regardless; the middle component is the
key/value pair written through the out pointer. -/
def ds_spsc_delete (h : Spsc) (dataNull : Bool) : Int × Option (Nat × Nat) × Spsc :=
  let r := h.readIdx
  let w := h.writeIdx
  if r = w then (DS_ERROR_NOT_FOUND, none, h)
  else
    let node := h.records.getD r (0, 0)
    let out := if dataNull then none else some node
    let next := spscNext h.size r
    (DS_SUCCESS, out, { h with readIdx := next })

/-- States of a size-S ring reachable from ds_spsc_init by any finite
sequence of inserts and deletes. -/
inductive SpscReach (S : Nat) : Spsc → Prop where
  | init : SpscReach S ⟨0, 0, S, List.replicate S (0, 0)⟩
  | insert (s : Spsc) (k v : Nat) : SpscReach S s → SpscReach S (ds_spsc_insert s k v).2
  | delete (s : Spsc) (b : Bool) : SpscReach S s → SpscReach S (ds_spsc_delete s b).2.2

/-- Ring occupancy (number of pending elements), computed without modulo
from the in-range indices. -/
def spscOcc (s : Spsc) : Nat :=
  if s.readIdx ≤ s.writeIdx then s.writeIdx - s.readIdx
  else s.writeIdx + s.size - s.readIdx

/-- Physical slot of the i-th pending element counted from read_idx. -/
def spscWrap (size r i : Nat) : Nat :=
  if r + i < size then r + i else r + i - size

/-- Abstraction: the queue of pending key/value pairs held by the ring, in
FIFO order. -/
def spscContents (s : Spsc) : List (Nat × Nat) :=
  (List.range (spscOcc s)).map (fun i => s.records.getD (spscWrap s.size s.readIdx i) (0, 0))

/-! ## CK-style SPSC FIFO (src/include/ds_ck_fifo_spsc.h)

Stub-based linked FIFO.  Entries live in a heap addressed by positive
naturals (0 is NULL); the value field of an entry holds the payload pointer
passed to enqueue, which ds_ck_fifo_spsc_insert sets to the address of the
entry's own kv field (modelled by the entry's address). -/

structure CkEntry where
  value : Nat
  next : Nat
  kvKey : Nat
  kvValue : Nat
deriving Repr, DecidableEq

structure CkFifo where
  heap : List CkEntry
  head : Nat
  tail : Nat
  headSnapshot : Nat
  garbage : Nat
deriving Repr, DecidableEq

def ckGet (heap : List CkEntry) (a : Nat) : CkEntry :=
  heap.getD (a - 1) ⟨0, 0, 0, 0⟩

def ckSet (heap : List CkEntry) (a : Nat) (e : CkEntry) : List CkEntry :=
  heap.set (a - 1) e

/-- ds_ck_fifo_spsc_dequeue (lines 72-93): read head, load head.next; if
null report empty, else read the entry's value and advance head.  Returns
(found, value read, new state). -/
def ds_ck_fifo_spsc_dequeue (f : CkFifo) : Bool × Nat × CkFifo :=
  let head := f.head
  let entry := (ckGet f.heap head).next
  if entry = 0 then (false, 0, f)
  else (true, (ckGet f.heap entry).value, { f with head := entry })

/-- ds_ck_fifo_spsc_delete (lines 171-195).  With a NULL out pointer the
function returns DS_SUCCESS immediately after the dequeue, which has already
advanced head past the front entry. -/
def ds_ck_fifo_spsc_delete (headNull outNull : Bool) (f : CkFifo) :
    Int × Option (Nat × Nat) × CkFifo :=
  if headNull then (DS_ERROR_INVALID, none, f)
  else
    let d := ds_ck_fifo_spsc_dequeue f
    if d.1 = false then (DS_ERROR_NOT_FOUND, none, d.2.2)
    else if outNull then (DS_SUCCESS, none, d.2.2)
    else if d.2.1 = 0 then (DS_ERROR_CORRUPT, none, d.2.2)
    else
      (DS_SUCCESS,
       some ((ckGet d.2.2.heap d.2.1).kvKey, (ckGet d.2.2.heap d.2.1).kvValue),
       d.2.2)

/-- ds_ck_fifo_spsc_enqueue (lines 51-70): set the entry's value and next,
link it after the current tail and make it the new tail. -/
def ds_ck_fifo_spsc_enqueue (f : CkFifo) (entryAddr value : Nat) : CkFifo :=
  let heap1 := ckSet f.heap entryAddr { ckGet f.heap entryAddr with value := value, next := 0 }
  let tail := f.tail
  let heap2 := ckSet heap1 tail { ckGet heap1 tail with next := entryAddr }
  { f with heap := heap2, tail := entryAddr }

/-- ds_ck_fifo_spsc_insert (lines 146-169), with recycling elided to the
fresh-allocation path (recycle returns NULL on a fresh fifo): allocate an
entry, fill its kv, enqueue it with the address of its kv as payload. -/
def ds_ck_fifo_spsc_insert (f : CkFifo) (key value : Nat) : Int × CkFifo :=
  let entryAddr := f.heap.length + 1
  let heap1 := f.heap ++ [⟨0, 0, key, value⟩]
  (DS_SUCCESS, ds_ck_fifo_spsc_enqueue { f with heap := heap1 } entryAddr entryAddr)

/-- ds_ck_fifo_spsc_init (lines 124-144): allocate the stub and point all
four fifo pointers at it. -/
def ds_ck_fifo_spsc_init : CkFifo :=
  { heap := [⟨0, 0, 0, 0⟩], head := 1, tail := 1, headSnapshot := 1, garbage := 1 }

/-! ## Michael-Scott FIFO queue (src/include/ds_msqueue.h)

The enqueue and dequeue retry loops read shared pointers whose values are
determined by concurrently running threads.  Each loop iteration is
parameterised by the values observed at its atomic loads and the outcome of
its compare-and-swap; a serial execution is the special case in which the
observations coincide with the actual state. -/

/-- Values observed by one iteration of the enqueue loop of
__msqueue_add_node (lines 130-181): the pointer loaded from tail.next and
whether the CAS that links the new node at tail.next succeeded. -/
structure MsAddObs where
  nextPtr : Nat
  casLinked : Bool
deriving Repr, DecidableEq

/-- Retry loop of __msqueue_add_node: while retry_count is below the budget
of 10, an iteration that observes a non-null tail.next helps swing the tail
and retries; otherwise it attempts the linking CAS.  Exhausting the budget
returns DS_ERROR_INVALID (line 167). -/
def msAddLoop (obs : Nat → MsAddObs) (retry fuel : Nat) : Int :=
  match fuel with
  | 0 => DS_ERROR_INVALID
  | fuel + 1 =>
    let o := obs retry
    if o.nextPtr ≠ 0 then msAddLoop obs (retry + 1) fuel
    else if o.casLinked then DS_SUCCESS
    else msAddLoop obs (retry + 1) fuel

/-- __msqueue_add_node with max_retries = 10. -/
def msqueue_add_node (obs : Nat → MsAddObs) : Int :=
  msAddLoop obs 0 10

/-- ds_msqueue_insert (lines 199-224): NULL queue is INVALID, allocation
failure is NOMEM, otherwise the result of __msqueue_add_node, with any
non-success mapped to DS_ERROR_INVALID after freeing the node. -/
def ds_msqueue_insert (queueNull : Bool) (allocOk : Bool) (obs : Nat → MsAddObs) : Int :=
  if queueNull then DS_ERROR_INVALID
  else if allocOk = false then DS_ERROR_NOMEM
  else if msqueue_add_node obs = DS_SUCCESS then DS_SUCCESS
  else DS_ERROR_INVALID

/-- Values observed by one iteration of the dequeue loop of
ds_msqueue_delete (lines 242-309): the loaded head, tail and head.next
pointers, the re-read of head, the payload read from the successor, and the
outcome of the head-swinging CAS. -/
structure MsDelObs where
  headPtr : Nat
  tailPtr : Nat
  nextPtr : Nat
  headAgain : Nat
  kv : Nat × Nat
  casHead : Bool
deriving Repr, DecidableEq

/-- Retry loop of ds_msqueue_delete.  Exhausting the budget of 10 returns
DS_ERROR_INVALID (line 308). -/
def msDelLoop (obs : Nat → MsDelObs) (retry fuel : Nat) : Int × Option (Nat × Nat) :=
  match fuel with
  | 0 => (DS_ERROR_INVALID, none)
  | fuel + 1 =>
    let o := obs retry
    if o.headAgain ≠ o.headPtr then msDelLoop obs (retry + 1) fuel
    else if o.nextPtr = 0 then (DS_ERROR_NOT_FOUND, none)
    else if o.headPtr = o.tailPtr then msDelLoop obs (retry + 1) fuel
    else if o.casHead then (DS_SUCCESS, some o.kv)
    else msDelLoop obs (retry + 1) fuel

/-- ds_msqueue_delete: NULL queue or NULL output is INVALID, otherwise the
dequeue loop with max_retries = 10. -/
def ds_msqueue_delete (queueNull dataNull : Bool) (obs : Nat → MsDelObs) :
    Int × Option (Nat × Nat) :=
  if queueNull ∨ dataNull then (DS_ERROR_INVALID, none)
  else msDelLoop obs 0 10

/-- ds_msqueue_pop (lines 326-336): wrapper mapping DS_SUCCESS to 1 and
DS_ERROR_NOT_FOUND to 0, passing other results through. -/
def ds_msqueue_pop (queueNull dataNull : Bool) (obs : Nat → MsDelObs) :
    Int × Option (Nat × Nat) :=
  let r := ds_msqueue_delete queueNull dataNull obs
  if r.1 = DS_SUCCESS then (1, r.2)
  else if r.1 = DS_ERROR_NOT_FOUND then (0, r.2)
  else r

/-! Serial heap model of the queue structure for ds_msqueue_verify, which
the source documents as not thread-safe and which reads the state directly.
Elements are addressed by positive naturals, 0 is NULL. -/

structure MsElem where
  next : Nat
  key : Nat
  value : Nat
deriving Repr, DecidableEq

structure MsQueueSt where
  heap : List MsElem
  head : Nat
  tail : Nat
  count : Nat
deriving Repr, DecidableEq

def msGet (heap : List MsElem) (a : Nat) : MsElem :=
  heap.getD (a - 1) ⟨0, 0, 0⟩

/-- Walk of ds_msqueue_verify (lines 426-442): follow next pointers from the
first node counting non-dummy nodes and noting whether the tail was seen.
The fuel bounds the recursion; the loop's own bound is the count check
against max_iterations = 100000. -/
def msVerifyWalk (st : MsQueueSt) (node count : Nat) (foundTail : Bool) :
    Nat → Nat × Bool
  | 0 => (count, foundTail)
  | fuel + 1 =>
    if node = 0 ∨ count ≥ 100000 then (count, foundTail)
    else
      let foundTail := foundTail || (node = st.tail)
      let nodeNext := (msGet st.heap node).next
      let count := if count > 0 ∨ nodeNext ≠ 0 then count + 1 else count
      msVerifyWalk st nodeNext count foundTail fuel

/-- ds_msqueue_verify (lines 401-462).  A NULL queue is INVALID; a NULL head
or tail returns DS_ERROR_CORRUPT*5; a walk that never meets the tail returns
DS_ERROR_CORRUPT*2; a count deviating from the recorded count by more than
100 returns DS_ERROR_CORRUPT*3; hitting the iteration bound returns
DS_ERROR_CORRUPT*4. -/
def ds_msqueue_verify (q : Option MsQueueSt) : Int :=
  match q with
  | none => DS_ERROR_INVALID
  | some st =>
    if st.head = 0 ∨ st.tail = 0 then DS_ERROR_CORRUPT * 5
    else
      let start := (msGet st.heap st.head).next
      let w := msVerifyWalk st start 0 false 100001
      let count := if w.1 > 0 then w.1 - 1 else w.1
      if w.2 = false then DS_ERROR_CORRUPT * 2
      else if count > st.count + 100 ∨ st.count > count + 100 then DS_ERROR_CORRUPT * 3
      else if count ≥ 100000 then DS_ERROR_CORRUPT * 4
      else DS_SUCCESS

/-! ## Vyukov bounded MPMC queue (src/include/ds_vyukhov.h)

Serial-execution model: a single thread runs the operation, so every
compare-and-swap on enqueue_pos and dequeue_pos succeeds and reloads observe
the unchanged state.  u64 fields wrap at 2^64; the cast to __s64 in the dif
computation is modelled by two's-complement reinterpretation. -/

def U64 : Nat := 2 ^ 64

def s64ofU64 (n : Nat) : Int :=
  if n % U64 < 2 ^ 63 then ((n % U64 : Nat) : Int) else ((n % U64 : Nat) : Int) - (U64 : Int)

/-- Two's-complement wrap of a signed 64-bit intermediate result. -/
def wrapS64 (x : Int) : Int :=
  (x + 2 ^ 63) % (U64 : Int) - 2 ^ 63

structure VyCell where
  seq : Nat
  key : Nat
  value : Nat
deriving Repr, DecidableEq

structure Vyukhov where
  enqueuePos : Nat
  dequeuePos : Nat
  bufferMask : Nat
  buffer : List VyCell
  count : Nat
deriving Repr, DecidableEq

/-- ds_vyukhov_init (lines 101-137): capacity must be a power of two of at
least 2; cell i starts with sequence i. -/
def ds_vyukhov_init (capacity : Nat) (allocOk : Bool) : Int × Option Vyukhov :=
  if capacity < 2 ∨ capacity &&& (capacity - 1) ≠ 0 then (DS_ERROR_INVALID, none)
  else if allocOk = false then (DS_ERROR_NOMEM, none)
  else
    (DS_SUCCESS,
     some ⟨0, 0, capacity - 1, (List.range capacity).map (fun i => ⟨i, 0, 0⟩), 0⟩)

/-- Retry loop of ds_vyukhov_insert (lines 168-204) in a serial execution:
dif = 0 claims the slot (the CAS succeeds), writes the payload and releases
the cell with sequence pos+1; dif < 0 reports a full queue with
DS_ERROR_NOMEM (line 198); dif > 0 reloads the position and retries.
Exhausting the budget of 100 returns DS_ERROR_BUSY (line 207). -/
def vyInsertLoop (st : Vyukhov) (key value pos : Nat) : Nat → Int × Vyukhov
  | 0 => (DS_ERROR_BUSY, st)
  | fuel + 1 =>
    let idx := pos &&& st.bufferMask
    let cell := st.buffer.getD idx ⟨0, 0, 0⟩
    let dif := wrapS64 (s64ofU64 cell.seq - s64ofU64 pos)
    if dif = 0 then
      let st1 := { st with enqueuePos := (pos + 1) % U64 }
      let st2 := { st1 with
        buffer := st1.buffer.set idx ⟨(pos + 1) % U64, key, value⟩,
        count := (st1.count + 1) % U64 }
      (DS_SUCCESS, st2)
    else if dif < 0 then (DS_ERROR_NOMEM, st)
    else vyInsertLoop st key value st.enqueuePos fuel

def ds_vyukhov_insert (q : Option Vyukhov) (key value : Nat) : Int × Option Vyukhov :=
  match q with
  | none => (DS_ERROR_INVALID, none)
  | some st =>
    let r := vyInsertLoop st key value st.enqueuePos 100
    (r.1, some r.2)

/-- Retry loop of ds_vyukhov_delete (lines 238-276) in a serial execution:
dif = 0 claims the cell, copies the payload and releases the cell with
sequence pos+mask+1; dif < 0 reports an empty queue with
DS_ERROR_NOT_FOUND; dif > 0 reloads and retries. -/
def vyDeleteLoop (st : Vyukhov) (pos : Nat) : Nat → Int × Option (Nat × Nat) × Vyukhov
  | 0 => (DS_ERROR_BUSY, none, st)
  | fuel + 1 =>
    let idx := pos &&& st.bufferMask
    let cell := st.buffer.getD idx ⟨0, 0, 0⟩
    let dif := wrapS64 (s64ofU64 cell.seq - s64ofU64 ((pos + 1) % U64))
    if dif = 0 then
      let st1 := { st with dequeuePos := (pos + 1) % U64 }
      let st2 := { st1 with
        buffer := st1.buffer.set idx ⟨(pos + st1.bufferMask + 1) % U64, cell.key, cell.value⟩,
        count := (st1.count + U64 - 1) % U64 }
      (DS_SUCCESS, some (cell.key, cell.value), st2)
    else if dif < 0 then (DS_ERROR_NOT_FOUND, none, st)
    else vyDeleteLoop st st.dequeuePos fuel

def ds_vyukhov_delete (q : Option Vyukhov) (dataNull : Bool) :
    Int × Option (Nat × Nat) × Option Vyukhov :=
  match q with
  | none => (DS_ERROR_INVALID, none, none)
  | some st =>
    if dataNull then (DS_ERROR_INVALID, none, some st)
    else
      let r := vyDeleteLoop st st.dequeuePos 100
      (r.1, r.2.1, some r.2.2)

/-- Outcome record of the capacity-2 MPMC scenario: result codes of the
three initial inserts, the first pop with its output, the refill insert,
and the last two pops with their outputs. -/
structure VyScenOut where
  ins1 : Int
  ins2 : Int
  ins3 : Int
  pop1 : Int × Option (Nat × Nat)
  ins4 : Int
  pop2 : Int × Option (Nat × Nat)
  pop3 : Int × Option (Nat × Nat)
deriving Repr, DecidableEq

/-- The serialized capacity-2 scenario of the claim. -/
def vyukhovScenario : VyScenOut :=
  let q0 := (ds_vyukhov_init 2 true).2
  let r1 := ds_vyukhov_insert q0 7 7
  let r2 := ds_vyukhov_insert r1.2 8 8
  let r3 := ds_vyukhov_insert r2.2 9 9
  let p1 := ds_vyukhov_delete r3.2 false
  let r4 := ds_vyukhov_insert p1.2.2 9 9
  let p2 := ds_vyukhov_delete r4.2 false
  let p3 := ds_vyukhov_delete p2.2.2 false
  ⟨r1.1, r2.1, r3.1, (p1.1, p1.2.1), r4.1, (p2.1, p2.2.1), (p3.1, p3.2.1)⟩

/-! ## Doubly-linked list (src/ds_list.h)

Serialized executions only (the spec requires mutators to be serialized).
The pprev field is a pointer to the slot that points at the node, modelled
as a sum: the head's first slot or the next slot of a given node. -/

inductive ListPP where
  | null : ListPP
  | headFirst : ListPP
  | nodeNext : Nat → ListPP
deriving Repr, DecidableEq

structure LNode where
  next : Nat
  pprev : ListPP
  key : Nat
  value : Nat
deriving Repr, DecidableEq

structure LState where
  heap : List LNode
  first : Nat
  count : Nat
deriving Repr, DecidableEq

def lGet (heap : List LNode) (a : Nat) : LNode :=
  heap.getD (a - 1) ⟨0, ListPP.null, 0, 0⟩

def lSet (heap : List LNode) (a : Nat) (n : LNode) : List LNode :=
  heap.set (a - 1) n

/-- __list_add_head (lines 74-94): link n before the current first node and
store n in the head's first slot. -/
def list_add_head (st : LState) (n : Nat) : LState :=
  let first := st.first
  let heap1 := lSet st.heap n { lGet st.heap n with next := first }
  let heap2 :=
    if first ≠ 0 then lSet heap1 first { lGet heap1 first with pprev := ListPP.nodeNext n }
    else heap1
  let heap3 := lSet heap2 n { lGet heap2 n with pprev := ListPP.headFirst }
  { st with heap := heap3, first := n }

/-- __list_del (lines 99-115).  The source reads *pprev into the local tmp
and then performs WRITE_ONCE(tmp, next), which stores next into the local
variable itself, not through pprev: the slot that points at n is never
updated.  Only the successor's pprev is rewritten. -/
def list_del (st : LState) (n : Nat) : LState :=
  let next := (lGet st.heap n).next
  let pprev := (lGet st.heap n).pprev
  let heap1 :=
    if next ≠ 0 then lSet st.heap next { lGet st.heap next with pprev := pprev }
    else st.heap
  { st with heap := heap1 }

/-- Key scan shared by insert, delete and search: first node whose key
matches, following next pointers. -/
def lFind (heap : List LNode) (key : Nat) (node : Nat) : Nat → Option Nat
  | 0 => none
  | fuel + 1 =>
    if node = 0 then none
    else if (lGet heap node).key = key then some node
    else lFind heap key (lGet heap node).next fuel

/-- ds_list_insert (lines 158-220): update in place on a key match,
otherwise allocate a node and link it at the head of the list. -/
def ds_list_insert (st : LState) (key value : Nat) : Int × LState :=
  match lFind st.heap key st.first (st.heap.length + 1) with
  | some n => (DS_SUCCESS, { st with heap := lSet st.heap n { lGet st.heap n with value := value } })
  | none =>
    let addr := st.heap.length + 1
    let heap1 := st.heap ++ [⟨0, ListPP.null, key, value⟩]
    let st1 := list_add_head { st with heap := heap1 } addr
    (DS_SUCCESS, { st1 with count := (st1.count + 1) % U64 })

/-- ds_list_delete (lines 229-274): find the key, unlink with __list_del,
free the node (the arena does not recycle the memory while the page is
live) and decrement count. -/
def ds_list_delete (st : LState) (key : Nat) : Int × LState :=
  match lFind st.heap key st.first (st.heap.length + 1) with
  | some n =>
    let st1 := list_del st n
    (DS_SUCCESS, { st1 with count := (st1.count + U64 - 1) % U64 })
  | none => (DS_ERROR_NOT_FOUND, st)

/-- ds_list_search (lines 284-324). -/
def ds_list_search (st : LState) (key : Nat) : Int × Option Nat :=
  match lFind st.heap key st.first (st.heap.length + 1) with
  | some n => (DS_SUCCESS, some (lGet st.heap n).value)
  | none => (DS_ERROR_NOT_FOUND, none)

/-- Walk of ds_list_verify (lines 350-362): count nodes and compare each
node's pprev with the expected slot.  Returns (count, ok, final node) where
ok is false when a pprev mismatch caused the CORRUPT return. -/
def lVerifyWalk (heap : List LNode) (node count : Nat) (expected : ListPP) :
    Nat → Nat × Bool × Nat
  | 0 => (count, true, node)
  | fuel + 1 =>
    if node = 0 ∨ count ≥ 100000 then (count, true, node)
    else
      let count := count + 1
      if (lGet heap node).pprev ≠ expected then (count, false, node)
      else lVerifyWalk heap (lGet heap node).next count (ListPP.nodeNext node) fuel

/-- ds_list_verify (lines 337-378).  The local expected_pprev is read before
it is ever assigned (its first comparison happens with whatever value the
stack held), so the model takes that indeterminate initial value as the
garbage argument. -/
def ds_list_verify (garbage : ListPP) (st : LState) : Int :=
  let w := lVerifyWalk st.heap st.first 0 garbage 100001
  if w.2.1 = false then DS_ERROR_CORRUPT
  else if w.1 ≠ st.count then DS_ERROR_CORRUPT
  else if w.1 ≥ 100000 ∧ w.2.2 ≠ 0 then DS_ERROR_CORRUPT
  else DS_SUCCESS

/-- State of the list after the serialized scenario sequence Insert(1,1),
Insert(2,2), Insert(1,9), Delete(2) from an initialized list. -/
def listScenarioState : LState :=
  let st0 : LState := ⟨[], 0, 0⟩
  let st1 := (ds_list_insert st0 1 1).2
  let st2 := (ds_list_insert st1 2 2).2
  let st3 := (ds_list_insert st2 1 9).2
  (ds_list_delete st3 2).2

/-! ## Arena allocator (src/include/libarena_ds.h)

Single-context model of bpf_arena_alloc and bpf_arena_refill_page.  The
per-CPU cursor is the pair (page, offset); the offset variable is a C int
and the size parameter an unsigned int, so the exhaustion test
(*cur_offset - size < 0) compares an unsigned value against 0. -/

def U32 : Nat := 2 ^ 32

def PAGE_SIZE : Nat := 4096

/-- round_up(x, 8) computed in unsigned int arithmetic: ((x-1) | 7) + 1 with
wrap at 2^32. -/
def roundUp8u32 (x : Nat) : Nat :=
  ((((x + (U32 - 1)) % U32) ||| 7) + 1) % U32

/-- Unsigned reinterpretation of a C int value. -/
def toU32 (i : Int) : Nat := (i % (U32 : Int)).toNat

/-- Signed reinterpretation of an unsigned 32-bit value. -/
def toS32 (n : Nat) : Int :=
  if n % U32 < 2 ^ 31 then ((n % U32 : Nat) : Int) else ((n % U32 : Nat) : Int) - (U32 : Int)

structure ArenaSt where
  hasPage : Bool
  pageId : Nat
  curOffset : Int
deriving Repr, DecidableEq

/-- bpf_arena_alloc (lines 168-201).  Returns the allocated (page, offset)
pair, or none for the NULL failure value.  The refill condition is
(!page || (*cur_offset - size < 0)); the second disjunct is an unsigned
value compared against 0 and therefore never true, reproduced literally
below. -/
def bpf_arena_alloc (st : ArenaSt) (size : Nat) : Option (Nat × Int) × ArenaSt :=
  let size := roundUp8u32 size
  if size ≥ PAGE_SIZE - 8 then (none, st)
  else
    let needRefill := st.hasPage = false ∨ (toU32 st.curOffset + U32 - size) % U32 < 0
    let st1 :=
      if needRefill then
        { hasPage := true, pageId := st.pageId + 1, curOffset := ((PAGE_SIZE - 8 : Nat) : Int) }
      else st
    let offset := toS32 ((toU32 st1.curOffset + U32 - size) % U32)
    (some (st1.pageId, offset), { st1 with curOffset := offset })

/-- The arena state before any allocation: no current page, offset 0. -/
def arenaFresh : ArenaSt := ⟨false, 0, 0⟩

/-! ## Ellen-style non-blocking BST (src/include/ds_bintree.h)

Serial-execution heap model.  Tree nodes use the uniform word layout of the
C structs so that the source's casts between leaf and internal views are
reproduced exactly: word 0 is the type field, word 1 the routing key of an
internal node and equally the kv.key of a leaf, word 2 the pLeft pointer of
an internal node and equally the kv.value of a leaf, word 3 pRight, word 4
the tagged m_pUpdate word.  Objects live in a bump heap; the address of the
object at list index i is 8*(i+1), so addresses are 8-aligned, nonzero, and
the low two tag bits of update words are free, as in the source.
bpf_arena_free does not recycle memory while the page is live, so freed
objects simply remain in the heap. -/

inductive BObj where
  | node (typ key f16 f24 f32 : Nat)
  | opdesc (info : Nat)
  | iinfo (pParent pNew pLeaf : Nat) (bRightLeaf : Bool)
  | dinfo (pGrandParent pParent pLeaf pUpdateParent : Nat) (bRightParent bRightLeaf : Bool)
deriving Repr, DecidableEq

structure BstHead where
  heap : List BObj
  root : Nat
  count : Nat
deriving Repr, DecidableEq

def BST_SENTINEL_KEY1 : Nat := 2 ^ 64 - 2

def BST_SENTINEL_KEY2 : Nat := 2 ^ 64 - 1

def bGetObj (h : List BObj) (a : Nat) : BObj := h.getD (a / 8 - 1) (BObj.node 0 0 0 0 0)

def bTyp (h : List BObj) (a : Nat) : Nat :=
  match bGetObj h a with | .node t _ _ _ _ => t | _ => 0

def bKey (h : List BObj) (a : Nat) : Nat :=
  match bGetObj h a with | .node _ k _ _ _ => k | _ => 0

def bF16 (h : List BObj) (a : Nat) : Nat :=
  match bGetObj h a with | .node _ _ x _ _ => x | _ => 0

def bF24 (h : List BObj) (a : Nat) : Nat :=
  match bGetObj h a with | .node _ _ _ y _ => y | _ => 0

def bF32 (h : List BObj) (a : Nat) : Nat :=
  match bGetObj h a with | .node _ _ _ _ z => z | _ => 0

def bSetTyp (h : List BObj) (a t : Nat) : List BObj :=
  match bGetObj h a with
  | .node _ k x y z => h.set (a / 8 - 1) (.node t k x y z)
  | _ => h

def bSetKey (h : List BObj) (a k : Nat) : List BObj :=
  match bGetObj h a with
  | .node t _ x y z => h.set (a / 8 - 1) (.node t k x y z)
  | _ => h

def bSetF16 (h : List BObj) (a x : Nat) : List BObj :=
  match bGetObj h a with
  | .node t k _ y z => h.set (a / 8 - 1) (.node t k x y z)
  | _ => h

def bSetF24 (h : List BObj) (a y : Nat) : List BObj :=
  match bGetObj h a with
  | .node t k x _ z => h.set (a / 8 - 1) (.node t k x y z)
  | _ => h

def bSetF32 (h : List BObj) (a z : Nat) : List BObj :=
  match bGetObj h a with
  | .node t k x y _ => h.set (a / 8 - 1) (.node t k x y z)
  | _ => h

def bOpInfo (h : List BObj) (a : Nat) : Nat :=
  match bGetObj h a with | .opdesc i => i | _ => 0

def bSetOpInfo (h : List BObj) (a i : Nat) : List BObj :=
  match bGetObj h a with
  | .opdesc _ => h.set (a / 8 - 1) (.opdesc i)
  | _ => h

def bAlloc (h : List BObj) (o : BObj) : Nat × List BObj :=
  (8 * (h.length + 1), h ++ [o])

/-- bst_make_update (lines 204-207): pack an info pointer and a two-bit
state into one word. -/
def bst_make_update (info state : Nat) : Nat :=
  (info &&& (2 ^ 64 - 4)) ||| (state &&& 3)

/-- bst_get_bits (lines 212-215). -/
def bst_get_bits (update : Nat) : Nat := update &&& 3

/-- bst_get_ptr (lines 220-223). -/
def bst_get_ptr (update : Nat) : Nat := update &&& (2 ^ 64 - 4)

/-- bst_get_child (lines 225-231). -/
def bst_get_child (h : List BObj) (a : Nat) (bRight : Bool) : Nat :=
  if bRight then bF24 h a else bF16 h a

/-- bst_set_infinite_key (lines 245-262): clear the two infinite-key flag
bits of the 32-bit type word, then set the requested one. -/
def bst_set_infinite_key (h : List BObj) (a nInf : Nat) : List BObj :=
  let flags := (bTyp h a) &&& (U32 - 1 - 6)
  let flags :=
    if nInf = 1 then flags ||| 2
    else if nInf = 2 then flags ||| 4
    else flags
  bSetTyp h a flags

/-- Word compare-and-swap on the m_pUpdate field; returns the previous
value, as arena_atomic_cmpxchg does. -/
def bCASF32 (h : List BObj) (a expected new : Nat) : Nat × List BObj :=
  let cur := bF32 h a
  if cur = expected then (cur, bSetF32 h a new) else (cur, h)

/-- Pointer compare-and-swap on the pLeft field. -/
def bCASF16 (h : List BObj) (a expected new : Nat) : Nat × List BObj :=
  let cur := bF16 h a
  if cur = expected then (cur, bSetF16 h a new) else (cur, h)

/-- Pointer compare-and-swap on the pRight field. -/
def bCASF24 (h : List BObj) (a expected new : Nat) : Nat × List BObj :=
  let cur := bF24 h a
  if cur = expected then (cur, bSetF24 h a new) else (cur, h)

/-- Search result record (struct bst_search_result, lines 276-284). -/
structure BstRes where
  gp : Nat
  p : Nat
  leaf : Nat
  updP : Nat
  updGP : Nat
  bRightLeaf : Bool
  bRightParent : Bool
deriving Repr, DecidableEq

/-- Descent loop of bst_search (lines 338-364) with the iteration bound
BST_MAX_DEPTH = 4 carried as fuel.  A DFLAG or MARK state on the node just
made parent stops the descent with pLeaf still equal to that node. -/
def bstSearchGo (h : List BObj) (key : Nat) (gp p leaf updP updGP : Nat)
    (bRL bRP : Bool) : Nat → BstRes
  | 0 => ⟨gp, p, leaf, updP, updGP, bRL, bRP⟩
  | fuel + 1 =>
    if bTyp h leaf ≠ 0 then ⟨gp, p, leaf, updP, updGP, bRL, bRP⟩
    else
      let gp1 := p
      let p1 := leaf
      let bRP1 := bRL
      let updGP1 := updP
      let updP1 := bF32 h p1
      let st := bst_get_bits updP1
      if st = 1 ∨ st = 3 then ⟨gp1, p1, leaf, updP1, updGP1, bRL, bRP1⟩
      else if key < bKey h p1 then
        bstSearchGo h key gp1 p1 (bF16 h p1) updP1 updGP1 false bRP1 fuel
      else
        bstSearchGo h key gp1 p1 (bF24 h p1) updP1 updGP1 true bRP1 fuel

/-- bst_search (lines 311-379): descend from the root; the boolean is the
comparison of the searched key against the kv.key of the final pLeaf, read
through the leaf layout (a routing key when pLeaf is an internal node). -/
def bst_search (hd : BstHead) (key : Nat) : Bool × BstRes :=
  let res := bstSearchGo hd.heap key 0 0 hd.root 0 0 false false 4
  (key = bKey hd.heap res.leaf, res)

/-- bst_help_insert (lines 426-442): swing the parent's child from the old
leaf to the new internal node, then unflag the parent. -/
def bst_help_insert (h : List BObj) (opAddr : Nat) : List BObj :=
  match bGetObj h (bOpInfo h opAddr) with
  | .iinfo pParent pNew pLeaf bRightLeaf =>
    let h1 :=
      if bRightLeaf then (bCASF24 h pParent pLeaf pNew).2
      else (bCASF16 h pParent pLeaf pNew).2
    (bCASF32 h1 pParent (bst_make_update opAddr 2) (bst_make_update opAddr 0)).2
  | _ => h

/-- bst_cas_child (lines 391-416): swing the child slot chosen by comparing
the new node's key word against the parent's routing key. -/
def bst_cas_child (h : List BObj) (parent oldNode newNode : Nat) : List BObj :=
  let newKey := bKey h newNode
  if newKey < bKey h parent then (bCASF16 h parent oldNode newNode).2
  else (bCASF24 h parent oldNode newNode).2

/-- bst_help_marked (lines 453-482): splice the parent out by swinging the
grandparent's child to the sibling of the deleted leaf, then unflag the
grandparent. -/
def bst_help_marked (h : List BObj) (opAddr : Nat) : List BObj :=
  match bGetObj h (bOpInfo h opAddr) with
  | .dinfo pGrandParent pParent pLeaf _ _ _ =>
    let rightChild := bF24 h pParent
    let sibling := if rightChild = pLeaf then bF16 h pParent else rightChild
    let h1 := bst_cas_child h pGrandParent pParent sibling
    (bCASF32 h1 pGrandParent (bst_make_update opAddr 1) (bst_make_update opAddr 0)).2
  | _ => h

/-- bst_help_delete (lines 495-527): try to mark the parent; on success
complete the physical deletion, otherwise backtrack by unflagging the
grandparent. -/
def bst_help_delete (h : List BObj) (opAddr : Nat) : Bool × List BObj :=
  match bGetObj h (bOpInfo h opAddr) with
  | .dinfo pGrandParent pParent _ pUpdateParent _ _ =>
    let marked := bst_make_update opAddr 3
    let r := bCASF32 h pParent pUpdateParent marked
    if r.1 = pUpdateParent ∨ r.1 = marked then (true, bst_help_marked r.2 opAddr)
    else
      (false,
       (bCASF32 r.2 pGrandParent (bst_make_update opAddr 1) (bst_make_update opAddr 0)).2)
  | _ => (false, h)

/-- ds_bintree_init (lines 571-629): two sentinel leaves and a root
internal node keyed with the second sentinel. -/
def ds_bintree_init : BstHead :=
  let a1 := bAlloc [] (.node 1 BST_SENTINEL_KEY1 0 0 0)
  let a2 := bAlloc a1.2 (.node 1 BST_SENTINEL_KEY2 0 0 0)
  let a3 := bAlloc a2.2 (.node 0 BST_SENTINEL_KEY2 a1.1 a2.1 (bst_make_update 0 0))
  { heap := a3.2, root := a3.1, count := 0 }

/-- Retry loop of ds_bintree_insert (lines 661-790) in a serial execution,
with iteration bound BST_MAX_DEPTH = 4 as fuel.  The root case of the new
internal node sets the infinite-key-1 flag and leaves the routing key word
unassigned (it keeps the arena's zero fill). -/
def bstInsertGo (hd : BstHead) (key value : Nat) : Nat → Int × BstHead
  | 0 => (DS_ERROR_BUSY, hd)
  | fuel + 1 =>
    let s := bst_search hd key
    let res := s.2
    if s.1 then
      (DS_SUCCESS, { hd with heap := bSetF16 hd.heap res.leaf value })
    else if res.p = 0 then (DS_ERROR_BUSY, hd)
    else if res.leaf = 0 then (DS_ERROR_BUSY, hd)
    else if bst_get_bits res.updP ≠ 0 ∨ bst_get_bits res.updGP ≠ 0 then
      bstInsertGo hd key value fuel
    else if bst_get_child hd.heap res.p res.bRightLeaf = res.leaf then
      let aLeaf := bAlloc hd.heap (.node 1 key value 0 0)
      let newLeaf := aLeaf.1
      let aInt := bAlloc aLeaf.2 (.node 0 0 0 0 (bst_make_update 0 0))
      let newInt := aInt.1
      let h2 := aInt.2
      let bLess := key < bKey h2 res.leaf
      let h3 :=
        if bLess then
          if res.gp ≠ 0 then
            let ha := bst_set_infinite_key h2 newInt 0
            let hb := bSetKey ha newInt (bKey ha res.leaf)
            bSetF24 (bSetF16 hb newInt newLeaf) newInt res.leaf
          else
            let ha := bst_set_infinite_key h2 newInt 1
            bSetF24 (bSetF16 ha newInt newLeaf) newInt res.leaf
        else
          let ha := bst_set_infinite_key h2 newInt 0
          let hb := bSetKey ha newInt key
          bSetF24 (bSetF16 hb newInt res.leaf) newInt newLeaf
      let aOp := bAlloc h3 (.opdesc 0)
      let pOp := aOp.1
      let aInfo := bAlloc aOp.2 (.iinfo res.p newInt res.leaf res.bRightLeaf)
      let h6 := bSetOpInfo aInfo.2 pOp aInfo.1
      let expected := bst_get_ptr res.updP
      let r := bCASF32 h6 res.p expected (bst_make_update pOp 2)
      if r.1 = expected then
        let h8 := bst_help_insert r.2 pOp
        (DS_SUCCESS, { heap := h8, root := hd.root, count := (hd.count + 1) % U64 })
      else
        bstInsertGo { hd with heap := r.2 } key value fuel
    else bstInsertGo hd key value fuel

/-- ds_bintree_insert (lines 642-793): reject keys at or above the first
sentinel, then run the retry loop. -/
def ds_bintree_insert (hd : BstHead) (key value : Nat) : Int × BstHead :=
  if key ≥ BST_SENTINEL_KEY1 then (DS_ERROR_INVALID, hd)
  else bstInsertGo hd key value 4

/-- Retry loop of ds_bintree_delete (lines 816-901) in a serial execution. -/
def bstDeleteGo (hd : BstHead) (key : Nat) : Nat → Int × BstHead
  | 0 => (DS_ERROR_BUSY, hd)
  | fuel + 1 =>
    let s := bst_search hd key
    let res := s.2
    if res.p = 0 ∨ res.leaf = 0 ∨ res.gp = 0 ∨ bTyp hd.heap res.leaf = 0 then
      (DS_ERROR_BUSY, hd)
    else if bKey hd.heap res.leaf ≠ key then (DS_ERROR_NOT_FOUND, hd)
    else if bst_get_bits res.updGP ≠ 0 then bstDeleteGo hd key fuel
    else if bst_get_bits res.updP ≠ 0 then bstDeleteGo hd key fuel
    else
      let aOp := bAlloc hd.heap (.opdesc 0)
      let pOp := aOp.1
      let aInfo := bAlloc aOp.2
        (.dinfo res.gp res.p res.leaf (bst_get_ptr res.updP) res.bRightParent res.bRightLeaf)
      let h3 := bSetOpInfo aInfo.2 pOp aInfo.1
      let r := bCASF32 h3 res.gp (bst_get_ptr res.updGP) (bst_make_update pOp 1)
      if r.1 = bst_get_ptr res.updGP then
        let hd2 := bst_help_delete r.2 pOp
        if hd2.1 then
          (DS_SUCCESS, { heap := hd2.2, root := hd.root, count := (hd.count + U64 - 1) % U64 })
        else bstDeleteGo { hd with heap := hd2.2 } key fuel
      else bstDeleteGo { hd with heap := r.2 } key fuel

def ds_bintree_delete (hd : BstHead) (key : Nat) : Int × BstHead :=
  bstDeleteGo hd key 4

/-- ds_bintree_search (lines 914-933). -/
def ds_bintree_search (hd : BstHead) (key : Nat) : Int :=
  let s := bst_search hd key
  if s.2.leaf = 0 then DS_ERROR_NOT_FOUND
  else if bKey hd.heap s.2.leaf = key then DS_SUCCESS
  else DS_ERROR_NOT_FOUND

/-- DFS loop of ds_bintree_verify (lines 964-1004): the top of the stack is
the list head; children are pushed left first, right second, each push
guarded by stack_top < BST_MAX_DEPTH - 1 = 3.  Returns none on a null
child (the CORRUPT early return) and the leaf count otherwise. -/
def bstVerifyGo (h : List BObj) (stack : List Nat) (leafCount : Nat) : Nat → Option Nat
  | 0 => some leafCount
  | fuel + 1 =>
    match stack with
    | [] => some leafCount
    | node :: rest =>
      let left := bF16 h node
      let right := bF24 h node
      if left = 0 ∨ right = 0 then none
      else
        let p1 :=
          if bTyp h left = 1 then
            (if bKey h left < BST_SENTINEL_KEY1 then leafCount + 1 else leafCount, rest)
          else if rest.length < 3 then (leafCount, left :: rest)
          else (leafCount, rest)
        let p2 :=
          if bTyp h right = 1 then
            (if bKey h right < BST_SENTINEL_KEY1 then p1.1 + 1 else p1.1, p1.2)
          else if p1.2.length < 3 then (p1.1, right :: p1.2)
          else (p1.1, p1.2)
        bstVerifyGo h p2.2 p2.1 fuel

/-- ds_bintree_verify (lines 947-1011) with its iteration bound
BST_MAX_DEPTH * 4 = 16. -/
def ds_bintree_verify (hd : BstHead) : Int :=
  if hd.root = 0 then DS_ERROR_INVALID
  else
    match bstVerifyGo hd.heap [hd.root] 0 16 with
    | none => DS_ERROR_CORRUPT
    | some leafCount => if leafCount ≠ hd.count then DS_ERROR_CORRUPT else DS_SUCCESS

/-- Scenario of the claim run serially for a given insertion order: the
results of Search(30), Search(45), Delete(30), Search(30) again, and
verify, after inserting the given keys (each with itself as value) into an
initialized tree. -/
def bintreeScenario (keys : List Nat) : Int × Int × Int × Int × Int :=
  let hd := keys.foldl (fun h k => (ds_bintree_insert h k k).2) ds_bintree_init
  let s30 := ds_bintree_search hd 30
  let s45 := ds_bintree_search hd 45
  let d := ds_bintree_delete hd 30
  let s30b := ds_bintree_search d.2 30
  let v := ds_bintree_verify d.2
  (s30, s45, d.1, s30b, v)

/-- Outcome record of the size-4 SPSC ring scenario: result codes of the
four inserts, then the four pops with the key/value pairs written through
the out pointer. -/
structure SpscScenOut where
  ins1 : Int
  ins2 : Int
  ins3 : Int
  ins4 : Int
  pop1 : Int × Option (Nat × Nat)
  pop2 : Int × Option (Nat × Nat)
  pop3 : Int × Option (Nat × Nat)
  pop4 : Int × Option (Nat × Nat)
deriving Repr, DecidableEq

/-- The size-4 serialized SPSC ring scenario of the claim. -/
def spscScenario : SpscScenOut :=
  let s0 := ((ds_spsc_init 4 true).2).getD ⟨0, 0, 0, []⟩
  let i1 := ds_spsc_insert s0 1 10
  let i2 := ds_spsc_insert i1.2 2 20
  let i3 := ds_spsc_insert i2.2 3 30
  let i4 := ds_spsc_insert i3.2 4 40
  let p1 := ds_spsc_delete i4.2 false
  let p2 := ds_spsc_delete p1.2.2 false
  let p3 := ds_spsc_delete p2.2.2 false
  let p4 := ds_spsc_delete p3.2.2 false
  ⟨i1.1, i2.1, i3.1, i4.1, (p1.1, p1.2.1), (p2.1, p2.2.1), (p3.1, p3.2.1), (p4.1, p4.2.1)⟩

/-! ## Auxiliary lemmas -/

lemma list_getD_set_ne {α : Type} {l : List α} {i j : Nat} {a d : α} (h : i ≠ j) :
    (l.set i a).getD j d = l.getD j d := by
  simp [List.getD, List.getElem?_set_ne h]

lemma list_getD_set_self {α : Type} {l : List α} {i : Nat} {a d : α} (h : i < l.length) :
    (l.set i a).getD i d = a := by
  simp [List.getD, List.getElem?_set_self, h]

lemma spsc_inv {S : Nat} {s : Spsc} (h2 : 2 ≤ S) (h : SpscReach S s) :
    s.size = S ∧ s.writeIdx < S ∧ s.readIdx < S ∧ s.records.length = S := by
  induction h with
  | init => simp [List.length_replicate]; omega
  | insert s k v _ ih =>
      obtain ⟨hsz, hw, hr, hl⟩ := ih
      unfold ds_spsc_insert
      dsimp only
      split
      · refine ⟨hsz, ?_, hr, by simpa [List.length_set] using hl⟩
        dsimp [spscNext]
        split <;> omega
      · exact ⟨hsz, hw, hr, hl⟩
  | delete s b _ ih =>
      obtain ⟨hsz, hw, hr, hl⟩ := ih
      unfold ds_spsc_delete
      dsimp only
      split
      · exact ⟨hsz, hw, hr, hl⟩
      · refine ⟨hsz, hw, ?_, hl⟩
        dsimp [spscNext]
        split <;> omega

lemma spsc_occ_le {S : Nat} {s : Spsc} (h2 : 2 ≤ S) (h : SpscReach S s) :
    spscOcc s ≤ S - 1 := by
  obtain ⟨hsz, hw, hr, -⟩ := spsc_inv h2 h
  dsimp [spscOcc]
  split <;> omega

lemma spsc_insert_core {S w r : Nat} {recs : List (Nat × Nat)} (h2 : 2 ≤ S)
    (hw : w < S) (hr : r < S) (hlen : recs.length = S) (k v : Nat) :
    (spscOcc ⟨w, r, S, recs⟩ < S - 1 →
      (ds_spsc_insert ⟨w, r, S, recs⟩ k v).1 = DS_SUCCESS ∧
      spscContents (ds_spsc_insert ⟨w, r, S, recs⟩ k v).2 =
        spscContents ⟨w, r, S, recs⟩ ++ [(k, v)]) ∧
    (spscOcc ⟨w, r, S, recs⟩ = S - 1 →
      (ds_spsc_insert ⟨w, r, S, recs⟩ k v).1 = DS_ERROR_FULL ∧
      (ds_spsc_insert ⟨w, r, S, recs⟩ k v).2 = ⟨w, r, S, recs⟩) := by
  constructor
  · intro hocc
    have hne : spscNext S w ≠ r := by
      dsimp [spscNext, spscOcc] at hocc ⊢
      split at hocc <;> split <;> omega
    refine ⟨by simp [ds_spsc_insert, hne], ?_⟩
    have hstep : (ds_spsc_insert ⟨w, r, S, recs⟩ k v).2 =
        ⟨spscNext S w, r, S, recs.set w (k, v)⟩ := by
      simp [ds_spsc_insert, hne]
    rw [hstep]
    have hoccnew : spscOcc ⟨spscNext S w, r, S, recs.set w (k, v)⟩ =
        spscOcc ⟨w, r, S, recs⟩ + 1 := by
      dsimp [spscOcc, spscNext] at hocc ⊢
      split at hocc <;> (split <;> (first | omega | (split <;> omega)))
    dsimp [spscContents]
    rw [hoccnew, List.range_succ (spscOcc ⟨w, r, S, recs⟩), List.map_append]
    congr 1
    · apply List.map_congr_left
      intro i hi
      rw [List.mem_range] at hi
      have hwrap : spscWrap S r i ≠ w := by
        dsimp [spscOcc] at hi
        dsimp [spscWrap]
        split at hi <;> (split <;> omega)
      exact list_getD_set_ne (Ne.symm hwrap)
    · have hwrap : spscWrap S r (spscOcc ⟨w, r, S, recs⟩) = w := by
        dsimp [spscOcc, spscWrap]
        split <;> (split <;> omega)
      rw [List.map_singleton, hwrap, list_getD_set_self (by omega)]
  · intro hocc
    have heq : spscNext S w = r := by
      dsimp [spscNext, spscOcc] at hocc ⊢
      split at hocc <;> (split <;> omega)
    constructor <;> simp [ds_spsc_insert, heq]

lemma spsc_delete_core {S w r : Nat} {recs : List (Nat × Nat)} (h2 : 2 ≤ S)
    (hw : w < S) (hr : r < S) (hlen : recs.length = S) (b : Bool) :
    (spscOcc ⟨w, r, S, recs⟩ = 0 →
      (ds_spsc_delete ⟨w, r, S, recs⟩ b).1 = DS_ERROR_NOT_FOUND ∧
      (ds_spsc_delete ⟨w, r, S, recs⟩ b).2.2 = ⟨w, r, S, recs⟩) ∧
    (0 < spscOcc ⟨w, r, S, recs⟩ →
      (ds_spsc_delete ⟨w, r, S, recs⟩ b).1 = DS_SUCCESS ∧
      (b = false → (ds_spsc_delete ⟨w, r, S, recs⟩ b).2.1 =
        (spscContents ⟨w, r, S, recs⟩).head?) ∧
      (b = true → (ds_spsc_delete ⟨w, r, S, recs⟩ b).2.1 = none) ∧
      spscContents (ds_spsc_delete ⟨w, r, S, recs⟩ b).2.2 =
        (spscContents ⟨w, r, S, recs⟩).tail) := by
  constructor
  · intro hocc
    have heq : r = w := by
      dsimp [spscOcc] at hocc
      split at hocc <;> omega
    constructor <;> simp [ds_spsc_delete, heq]
  · intro hocc
    have hne : r ≠ w := by
      dsimp [spscOcc] at hocc
      split at hocc <;> omega
    obtain ⟨m, hm⟩ : ∃ m, spscOcc ⟨w, r, S, recs⟩ = m + 1 :=
      ⟨spscOcc ⟨w, r, S, recs⟩ - 1, by omega⟩
    have hmS : m + 1 ≤ S - 1 := by
      rw [← hm]
      dsimp [spscOcc]
      split <;> omega
    have hstep : (ds_spsc_delete ⟨w, r, S, recs⟩ b).2.2 =
        ⟨w, spscNext S r, S, recs⟩ := by
      simp [ds_spsc_delete, hne]
    have hhead : (spscContents ⟨w, r, S, recs⟩).head? = some (recs.getD r (0, 0)) := by
      dsimp [spscContents]
      rw [hm, List.range_succ_eq_map m, List.map_cons]
      have h0 : spscWrap S r 0 = r := by
        dsimp [spscWrap]
        split <;> omega
      simp [h0]
    refine ⟨by simp [ds_spsc_delete, hne], ?_, ?_, ?_⟩
    · intro hb
      subst hb
      rw [hhead]
      simp [ds_spsc_delete, hne]
    · intro hb
      subst hb
      simp [ds_spsc_delete, hne]
    · rw [hstep]
      dsimp [spscContents]
      have hoccnew : spscOcc ⟨w, spscNext S r, S, recs⟩ = m := by
        dsimp [spscOcc, spscNext] at hm ⊢
        split at hm <;> (repeat' split) <;> omega
      rw [hoccnew, hm, List.range_succ_eq_map m, List.map_cons, List.tail_cons, List.map_map]
      apply List.map_congr_left
      intro i hi
      rw [List.mem_range] at hi
      have hwrap : spscWrap S (spscNext S r) i = spscWrap S r (i + 1) := by
        dsimp [spscWrap, spscNext]
        split <;> (split <;> (first | omega | (split <;> omega)))
      simp [Function.comp, hwrap]

lemma spscContents_length (s : Spsc) : (spscContents s).length = spscOcc s := by
  simp [spscContents]

lemma msAddLoop_eq_or (obs : Nat → MsAddObs) (retry fuel : Nat) :
    msAddLoop obs retry fuel = DS_SUCCESS ∨ msAddLoop obs retry fuel = DS_ERROR_INVALID := by
  induction fuel generalizing retry with
  | zero => exact Or.inr rfl
  | succ n ih =>
    unfold msAddLoop
    dsimp only
    split
    · exact ih (retry + 1)
    · split
      · exact Or.inl rfl
      · exact ih (retry + 1)

lemma msDelLoop_eq_or (obs : Nat → MsDelObs) (retry fuel : Nat) :
    (msDelLoop obs retry fuel).1 = DS_SUCCESS ∨
    (msDelLoop obs retry fuel).1 = DS_ERROR_NOT_FOUND ∨
    (msDelLoop obs retry fuel).1 = DS_ERROR_INVALID := by
  induction fuel generalizing retry with
  | zero => exact Or.inr (Or.inr rfl)
  | succ n ih =>
    unfold msDelLoop
    dsimp only
    split
    · exact ih (retry + 1)
    · split
      · exact Or.inr (Or.inl rfl)
      · split
        · exact ih (retry + 1)
        · split
          · exact Or.inl rfl
          · exact ih (retry + 1)

lemma msAddLoop_exhaust (obs : Nat → MsAddObs) (fuel : Nat) :
    ∀ retry, (∀ i, retry ≤ i → i < retry + fuel →
      (obs i).nextPtr ≠ 0 ∨ (obs i).casLinked = false) →
    msAddLoop obs retry fuel = DS_ERROR_INVALID := by
  induction fuel with
  | zero => intro retry _; rfl
  | succ n ih =>
    intro retry h
    have h0 := h retry (Nat.le_refl _) (by omega)
    have hrest : ∀ i, retry + 1 ≤ i → i < (retry + 1) + n →
        (obs i).nextPtr ≠ 0 ∨ (obs i).casLinked = false :=
      fun i h1 h2 => h i (by omega) (by omega)
    unfold msAddLoop
    dsimp only
    rcases h0 with h0 | h0
    · rw [if_pos h0]
      exact ih (retry + 1) hrest
    · by_cases hn : (obs retry).nextPtr ≠ 0
      · rw [if_pos hn]
        exact ih (retry + 1) hrest
      · rw [if_neg hn, if_neg (by simp [h0])]
        exact ih (retry + 1) hrest

/-- One dequeue-loop observation that only leads to a retry: the head
re-read disagrees, or the queue is non-empty but either the tail lags
behind the head or the head CAS fails. -/
def msDelRetryObs (o : MsDelObs) : Prop :=
  o.headAgain ≠ o.headPtr ∨
  (o.nextPtr ≠ 0 ∧ (o.headPtr = o.tailPtr ∨ o.casHead = false))

lemma msDelLoop_exhaust (obs : Nat → MsDelObs) (fuel : Nat) :
    ∀ retry, (∀ i, retry ≤ i → i < retry + fuel → msDelRetryObs (obs i)) →
    msDelLoop obs retry fuel = (DS_ERROR_INVALID, none) := by
  induction fuel with
  | zero => intro retry _; rfl
  | succ n ih =>
    intro retry h
    have h0 := h retry (Nat.le_refl _) (by omega)
    have hrest : ∀ i, retry + 1 ≤ i → i < (retry + 1) + n → msDelRetryObs (obs i) :=
      fun i h1 h2 => h i (by omega) (by omega)
    unfold msDelLoop
    dsimp only
    rcases h0 with h0 | ⟨h1, h2⟩
    · rw [if_pos h0]
      exact ih (retry + 1) hrest
    · by_cases hAgain : (obs retry).headAgain ≠ (obs retry).headPtr
      · rw [if_pos hAgain]
        exact ih (retry + 1) hrest
      · rw [if_neg hAgain, if_neg h1]
        rcases h2 with h2 | h2
        · rw [if_pos h2]
          exact ih (retry + 1) hrest
        · by_cases hTail : (obs retry).headPtr = (obs retry).tailPtr
          · rw [if_pos hTail]
            exact ih (retry + 1) hrest
          · rw [if_neg hTail, if_neg (by simp [h2])]
            exact ih (retry + 1) hrest

lemma ds_list_verify_mismatch (g : ListPP) (st : LState) (h1 : st.first ≠ 0)
    (h2 : (lGet st.heap st.first).pprev ≠ g) :
    ds_list_verify g st = DS_ERROR_CORRUPT := by
  have hw : lVerifyWalk st.heap st.first 0 g 100001 = (1, false, st.first) := by
    rw [show (100001 : Nat) = 100000 + 1 from rfl]
    unfold lVerifyWalk
    rw [if_neg (by simp [h1]), if_pos h2]
  unfold ds_list_verify
  rw [hw]
  rfl

/-! ## Claim theorems -/

/-- C1 counterexample: ds_msqueue_pop returns 1 on a successful dequeue and
ds_msqueue_verify returns DS_ERROR_CORRUPT*5 on a null head/tail pair;
neither value belongs to the eight-code result enumeration, so not every
operation returns a member of the closed enumeration. -/
theorem msqueue_pop_and_verify_escape_enum :
    (ds_msqueue_pop false false (fun _ => ⟨1, 2, 3, 1, (1, 1), true⟩)).1 = 1 ∧
    (1 : Int) ∉ dsResultEnum ∧
    ds_msqueue_verify (some ⟨[], 0, 0, 0⟩) = DS_ERROR_CORRUPT * 5 ∧
    DS_ERROR_CORRUPT * 5 ∉ dsResultEnum := by
  decide

/-- C1 amended: Michael-Scott insert and delete return only codes of the
enumeration, but pop returns 1, 0 or DS_ERROR_INVALID, and verify returns
DS_SUCCESS, DS_ERROR_INVALID, or DS_ERROR_CORRUPT scaled by 2 to 5 — the
pop success value 1 and the scaled CORRUPT codes lie outside the closed
enumeration. -/
theorem msqueue_results_amended :
    (∀ (qn an : Bool) (obsA : Nat → MsAddObs), ds_msqueue_insert qn an obsA ∈ dsResultEnum) ∧
    (∀ (qn dn : Bool) (obsD : Nat → MsDelObs),
      (ds_msqueue_delete qn dn obsD).1 ∈ dsResultEnum) ∧
    (∀ (qn dn : Bool) (obsD : Nat → MsDelObs),
      (ds_msqueue_pop qn dn obsD).1 ∈ ([1, 0, DS_ERROR_INVALID] : List Int)) ∧
    (∀ q, ds_msqueue_verify q ∈
      ([DS_SUCCESS, DS_ERROR_INVALID, DS_ERROR_CORRUPT * 2, DS_ERROR_CORRUPT * 3,
        DS_ERROR_CORRUPT * 4, DS_ERROR_CORRUPT * 5] : List Int)) := by
  refine ⟨?_, ?_, ?_, ?_⟩
  · intro qn an obsA
    unfold ds_msqueue_insert
    (repeat' split) <;> decide
  · intro qn dn obsD
    unfold ds_msqueue_delete
    split
    · decide
    · rcases msDelLoop_eq_or obsD 0 10 with h | h | h <;> rw [h] <;> decide
  · intro qn dn obsD
    unfold ds_msqueue_pop ds_msqueue_delete
    by_cases hq : qn ∨ dn
    · rw [if_pos hq]
      decide
    · rw [if_neg hq]
      rcases msDelLoop_eq_or obsD 0 10 with h | h | h <;>
        simp [h, DS_SUCCESS, DS_ERROR_NOT_FOUND, DS_ERROR_INVALID]
  · intro q
    cases q with
    | none => decide
    | some st =>
      dsimp only [ds_msqueue_verify]
      (repeat' split) <;> decide

/-- C2 counterexample: inserting the same five keys in the serialized order
[70, 50, 40, 20, 30] makes Delete(30) return DS_ERROR_BUSY (the bounded
depth-4 search stops at an internal node) and the subsequent Search(30)
still returns DS_SUCCESS, contradicting the claim for that order. -/
theorem bintree_scenario_busy_counterexample :
    bintreeScenario [70, 50, 40, 20, 30] =
      (DS_SUCCESS, DS_ERROR_NOT_FOUND, DS_ERROR_BUSY, DS_SUCCESS, DS_SUCCESS) ∧
    DS_ERROR_BUSY ≠ DS_SUCCESS ∧ (DS_SUCCESS : Int) ≠ DS_ERROR_NOT_FOUND := by
  decide

/-- C2 amended: in the listed insertion order [50, 30, 70, 20, 40] the
scenario holds as stated: Search(30) is DS_SUCCESS, Search(45) is
DS_ERROR_NOT_FOUND, Delete(30) is DS_SUCCESS, the subsequent Search(30) is
DS_ERROR_NOT_FOUND, and verify is DS_SUCCESS. -/
theorem bintree_scenario_listed_order :
    bintreeScenario [50, 30, 70, 20, 40] =
      (DS_SUCCESS, DS_ERROR_NOT_FOUND, DS_SUCCESS, DS_ERROR_NOT_FOUND, DS_SUCCESS) := by
  decide

/-- C3 counterexample: a correct caller (non-null queue, non-null output,
successful allocation) whose every loop iteration observes a lagging tail
exhausts the retry budget and receives DS_ERROR_INVALID, not BUSY, from
both insert and delete. -/
theorem msqueue_exhaustion_invalid_counterexample :
    ds_msqueue_insert false true (fun _ => ⟨8, false⟩) = DS_ERROR_INVALID ∧
    (ds_msqueue_delete false false (fun _ => ⟨5, 5, 7, 5, (0, 0), false⟩)).1 =
      DS_ERROR_INVALID ∧
    DS_ERROR_INVALID ≠ DS_ERROR_BUSY := by
  decide

/-- C3 amended: when the Michael-Scott retry budget of 10 is exceeded,
insert and delete return DS_ERROR_INVALID (as their own doc comments
state), and neither operation ever returns BUSY; INVALID is therefore also
produced for correct callers under contention. -/
theorem msqueue_retry_exhaustion_amended
    (obsA obsA2 : Nat → MsAddObs) (obsD obsD2 : Nat → MsDelObs) (qn an dn : Bool)
    (hA : ∀ i, i < 10 → (obsA i).nextPtr ≠ 0 ∨ (obsA i).casLinked = false)
    (hD : ∀ i, i < 10 → msDelRetryObs (obsD i)) :
    msqueue_add_node obsA = DS_ERROR_INVALID ∧
    ds_msqueue_insert false true obsA = DS_ERROR_INVALID ∧
    (ds_msqueue_delete false false obsD).1 = DS_ERROR_INVALID ∧
    ds_msqueue_insert qn an obsA2 ≠ DS_ERROR_BUSY ∧
    (ds_msqueue_delete qn dn obsD2).1 ≠ DS_ERROR_BUSY := by
  have hA' : msqueue_add_node obsA = DS_ERROR_INVALID :=
    msAddLoop_exhaust obsA 10 0 (fun i h1 h2 => hA i (by omega))
  have hD' : msDelLoop obsD 0 10 = (DS_ERROR_INVALID, none) :=
    msDelLoop_exhaust obsD 10 0 (fun i h1 h2 => hD i (by omega))
  refine ⟨hA', ?_, ?_, ?_, ?_⟩
  · simp [ds_msqueue_insert, hA', DS_ERROR_INVALID, DS_SUCCESS]
  · simp [ds_msqueue_delete, hD']
  · unfold ds_msqueue_insert
    (repeat' split) <;> decide
  · unfold ds_msqueue_delete
    split
    · decide
    · rcases msDelLoop_eq_or obsD2 0 10 with h | h | h <;> rw [h] <;> decide

/-- C3 witness at the concrete all-lagging schedules. -/
theorem msqueue_retry_exhaustion_amended_witness :
    msqueue_add_node (fun _ => ⟨8, false⟩) = DS_ERROR_INVALID ∧
    ds_msqueue_insert false true (fun _ => ⟨8, false⟩) = DS_ERROR_INVALID ∧
    (ds_msqueue_delete false false (fun _ => ⟨5, 5, 7, 5, (0, 0), false⟩)).1 =
      DS_ERROR_INVALID ∧
    ds_msqueue_insert false true (fun _ => ⟨8, false⟩) ≠ DS_ERROR_BUSY ∧
    (ds_msqueue_delete false false (fun _ => ⟨5, 5, 7, 5, (0, 0), false⟩)).1 ≠
      DS_ERROR_BUSY :=
  msqueue_retry_exhaustion_amended (fun _ => ⟨8, false⟩) (fun _ => ⟨8, false⟩)
    (fun _ => ⟨5, 5, 7, 5, (0, 0), false⟩) (fun _ => ⟨5, 5, 7, 5, (0, 0), false⟩)
    false true false
    (fun i _ => Or.inl (by simp))
    (fun i _ => Or.inr ⟨by simp, Or.inl rfl⟩)

set_option maxRecDepth 40000 in
/-- C4 counterexample: on the full capacity-2 queue the third insert
returns DS_ERROR_NOMEM (line 198 of ds_vyukhov.h), which is not the FULL
code the claim names. -/
theorem vyukhov_full_nomem_counterexample :
    vyukhovScenario.ins3 = DS_ERROR_NOMEM ∧ DS_ERROR_NOMEM ≠ DS_ERROR_FULL := by
  decide

set_option maxRecDepth 40000 in
/-- C4 amended: the serialized capacity-2 scenario holds with the full-queue
insert returning DS_ERROR_NOMEM: inserts (7,7) and (8,8) succeed, the third
insert returns DS_ERROR_NOMEM, the first pop yields (7,7), insert (9,9)
then succeeds, and the remaining pops yield (8,8) and (9,9). -/
theorem vyukhov_scenario_amended :
    vyukhovScenario =
      ⟨DS_SUCCESS, DS_SUCCESS, DS_ERROR_NOMEM, (DS_SUCCESS, some (7, 7)),
       DS_SUCCESS, (DS_SUCCESS, some (8, 8)), (DS_SUCCESS, some (9, 9))⟩ := by
  decide

/-- C5: after Insert(1,1), Insert(2,2), Insert(1,9), Delete(2), Search(1)
does yield 9 and head.count is 1, but verify returns DS_ERROR_CORRUPT for
every possible value of its uninitialized expected_pprev local, because
__list_del stored the successor into a local instead of through pprev:
head.first still points at the freed key-2 node. -/
theorem list_scenario_delete_unlink_bug :
    ds_list_search listScenarioState 1 = (DS_SUCCESS, some 9) ∧
    listScenarioState.count = 1 ∧
    (∀ garbage, ds_list_verify garbage listScenarioState = DS_ERROR_CORRUPT) ∧
    listScenarioState.first = 2 ∧
    (lGet listScenarioState.heap listScenarioState.first).key = 2 := by
  refine ⟨by decide, by decide, ?_, by decide, by decide⟩
  intro g
  rcases g with _ | _ | a
  · decide
  · decide
  · refine ds_list_verify_mismatch _ _ (by decide) ?_
    intro h
    cases h

/-- C6: the size-4 SPSC ring scenario: three inserts succeed, the fourth
returns DS_ERROR_FULL, the three pops yield (1,10), (2,20), (3,30) in
order, and the fourth pop reports the empty ring with DS_ERROR_NOT_FOUND,
the code's empty-queue result (its doc comment reads DS_ERROR_NOT_FOUND
(empty)). -/
theorem spsc_ring_scenario_theorem :
    spscScenario =
      ⟨DS_SUCCESS, DS_SUCCESS, DS_SUCCESS, DS_ERROR_FULL, (DS_SUCCESS, some (1, 10)),
       (DS_SUCCESS, some (2, 20)), (DS_SUCCESS, some (3, 30)), (DS_ERROR_NOT_FOUND, none)⟩ := by
  decide

/-- C7: on every ring of size S at least 2 and every state reachable by
inserts and deletes from the initialized state, write_idx and read_idx lie
in [0, S) and the occupancy (write_idx - read_idx) mod S lies between 0 and
S - 1. -/
theorem spsc_indices_in_range (S : Nat) (s : Spsc) (h2 : 2 ≤ S) (h : SpscReach S s) :
    s.writeIdx < S ∧ s.readIdx < S ∧
    0 ≤ ((s.writeIdx : Int) - (s.readIdx : Int)) % (S : Int) ∧
    ((s.writeIdx : Int) - (s.readIdx : Int)) % (S : Int) ≤ (S : Int) - 1 := by
  obtain ⟨-, hw, hr, -⟩ := spsc_inv h2 h
  have hS : (0 : Int) < (S : Int) := by exact_mod_cast Nat.lt_of_lt_of_le Nat.zero_lt_two h2
  refine ⟨hw, hr, Int.emod_nonneg _ (by omega), ?_⟩
  have := Int.emod_lt_of_pos ((s.writeIdx : Int) - (s.readIdx : Int)) hS
  omega

/-- C7 witness: size 4, the state after one insert from init. -/
theorem spsc_indices_in_range_witness :
    (ds_spsc_insert ⟨0, 0, 4, List.replicate 4 (0, 0)⟩ 1 10).2.writeIdx < 4 ∧
    (ds_spsc_insert ⟨0, 0, 4, List.replicate 4 (0, 0)⟩ 1 10).2.readIdx < 4 ∧
    0 ≤ (((ds_spsc_insert ⟨0, 0, 4, List.replicate 4 (0, 0)⟩ 1 10).2.writeIdx : Int) -
      ((ds_spsc_insert ⟨0, 0, 4, List.replicate 4 (0, 0)⟩ 1 10).2.readIdx : Int)) % (4 : Int) ∧
    (((ds_spsc_insert ⟨0, 0, 4, List.replicate 4 (0, 0)⟩ 1 10).2.writeIdx : Int) -
      ((ds_spsc_insert ⟨0, 0, 4, List.replicate 4 (0, 0)⟩ 1 10).2.readIdx : Int)) % (4 : Int) ≤
      (4 : Int) - 1 :=
  spsc_indices_in_range 4 _ (by norm_num) (SpscReach.insert _ 1 10 SpscReach.init)

/-- C9: dequeuing with a NULL output pointer from a non-empty Folly SPSC
ring still advances read_idx past the front element and returns DS_SUCCESS
with the pair discarded; the CK-style SPSC FIFO delete likewise advances
head past the front entry and returns DS_SUCCESS with a NULL out pointer. -/
theorem delete_null_out_discards (s : Spsc) (f : CkFifo)
    (hs : s.readIdx ≠ s.writeIdx) (hf : (ckGet f.heap f.head).next ≠ 0) :
    (ds_spsc_delete s true).1 = DS_SUCCESS ∧
    (ds_spsc_delete s true).2.1 = none ∧
    (ds_spsc_delete s true).2.2.readIdx = spscNext s.size s.readIdx ∧
    (ds_spsc_delete s true).2.2.records = s.records ∧
    (ds_ck_fifo_spsc_delete false true f).1 = DS_SUCCESS ∧
    (ds_ck_fifo_spsc_delete false true f).2.1 = none ∧
    (ds_ck_fifo_spsc_delete false true f).2.2.head = (ckGet f.heap f.head).next := by
  refine ⟨?_, ?_, ?_, ?_, ?_, ?_, ?_⟩ <;>
    simp [ds_spsc_delete, ds_ck_fifo_spsc_delete, ds_ck_fifo_spsc_dequeue, hs, hf]

/-- C9 witness: a two-slot ring holding one element and a fifo holding one
entry after its stub. -/
theorem delete_null_out_discards_witness :
    (ds_spsc_delete ⟨1, 0, 2, [(5, 6), (0, 0)]⟩ true).1 = DS_SUCCESS ∧
    (ds_spsc_delete ⟨1, 0, 2, [(5, 6), (0, 0)]⟩ true).2.1 = none ∧
    (ds_spsc_delete ⟨1, 0, 2, [(5, 6), (0, 0)]⟩ true).2.2.readIdx = spscNext 2 0 ∧
    (ds_spsc_delete ⟨1, 0, 2, [(5, 6), (0, 0)]⟩ true).2.2.records = [(5, 6), (0, 0)] ∧
    (ds_ck_fifo_spsc_delete false true
      (ds_ck_fifo_spsc_insert ds_ck_fifo_spsc_init 5 6).2).1 = DS_SUCCESS ∧
    (ds_ck_fifo_spsc_delete false true
      (ds_ck_fifo_spsc_insert ds_ck_fifo_spsc_init 5 6).2).2.1 = none ∧
    (ds_ck_fifo_spsc_delete false true
      (ds_ck_fifo_spsc_insert ds_ck_fifo_spsc_init 5 6).2).2.2.head =
      (ckGet (ds_ck_fifo_spsc_insert ds_ck_fifo_spsc_init 5 6).2.heap
        (ds_ck_fifo_spsc_insert ds_ck_fifo_spsc_init 5 6).2.head).next :=
  delete_null_out_discards ⟨1, 0, 2, [(5, 6), (0, 0)]⟩
    (ds_ck_fifo_spsc_insert ds_ck_fifo_spsc_init 5 6).2 (by decide) (by decide)

/-- C8: two consecutive 2048-byte allocations show the failing input: the
exhaustion check (*cur_offset - size < 0) compares an unsigned value with 0
and never refills, so the second allocation returns offset -8, outside the
usable region [0, P-8) of the page; and the request of 2^32 - 1 bytes (at
least P-8, which the claim says must fail) succeeds because round_up wraps
to 0, returning the page's counter word at offset 4088. -/
theorem arena_alloc_bounds_bug :
    bpf_arena_alloc arenaFresh 2048 = (some (1, 2040), ⟨true, 1, 2040⟩) ∧
    bpf_arena_alloc ⟨true, 1, 2040⟩ 2048 = (some (1, -8), ⟨true, 1, -8⟩) ∧
    ¬(0 ≤ (-8 : Int)) ∧
    (bpf_arena_alloc arenaFresh (2 ^ 32 - 1)).1 = some (1, 4088) ∧
    2 ^ 32 - 1 ≥ PAGE_SIZE - 8 ∧
    ¬((4088 : Int) < ((PAGE_SIZE : Nat) : Int) - 8) := by
  decide

/-- C10: ds_spsc_init returns DS_ERROR_INVALID exactly when size < 2 (and
DS_ERROR_NOMEM only on allocation failure); for every size S of at least 2,
powers of two or not, and every reachable state, the ring holds at most
S - 1 pending pairs, insert succeeds by appending exactly when fewer than
S - 1 are pending and returns DS_ERROR_FULL otherwise, and delete pops the
front pair in FIFO order or reports DS_ERROR_NOT_FOUND when empty. -/
theorem spsc_any_size_fifo (S : Nat) (s : Spsc) (k v size : Nat) (b allocOk : Bool)
    (h2 : 2 ≤ S) (hs : SpscReach S s) :
    ((ds_spsc_init size allocOk).1 = DS_ERROR_INVALID ↔ size < 2) ∧
    (spscContents s).length ≤ S - 1 ∧
    ((spscContents s).length < S - 1 →
      (ds_spsc_insert s k v).1 = DS_SUCCESS ∧
      spscContents (ds_spsc_insert s k v).2 = spscContents s ++ [(k, v)]) ∧
    ((spscContents s).length = S - 1 →
      (ds_spsc_insert s k v).1 = DS_ERROR_FULL ∧ (ds_spsc_insert s k v).2 = s) ∧
    (spscContents s = [] →
      (ds_spsc_delete s b).1 = DS_ERROR_NOT_FOUND ∧ (ds_spsc_delete s b).2.2 = s) ∧
    (spscContents s ≠ [] →
      (ds_spsc_delete s b).1 = DS_SUCCESS ∧
      (b = false → (ds_spsc_delete s b).2.1 = (spscContents s).head?) ∧
      spscContents (ds_spsc_delete s b).2.2 = (spscContents s).tail) := by
  have hocc := spsc_occ_le h2 hs
  obtain ⟨hsz, hw, hr, hlen⟩ := spsc_inv h2 hs
  obtain ⟨w, r, sz, recs⟩ := s
  dsimp only at hsz hw hr hlen
  rw [hsz] at hocc ⊢
  refine ⟨?_, ?_, ?_, ?_, ?_, ?_⟩
  · unfold ds_spsc_init
    split
    · simpa using (by assumption)
    · split <;> simp [DS_ERROR_NOMEM, DS_ERROR_INVALID, DS_SUCCESS] <;> omega
  · rw [spscContents_length]
    exact hocc
  · rw [spscContents_length]
    intro hlt
    exact (spsc_insert_core h2 hw hr hlen k v).1 hlt
  · rw [spscContents_length]
    intro heq
    exact (spsc_insert_core h2 hw hr hlen k v).2 heq
  · intro hnil
    have h0 : spscOcc ⟨w, r, S, recs⟩ = 0 := by
      rw [← spscContents_length, hnil]
      rfl
    exact (spsc_delete_core h2 hw hr hlen b).1 h0
  · intro hnil
    have h0 : 0 < spscOcc ⟨w, r, S, recs⟩ := by
      rw [← spscContents_length]
      exact List.length_pos.mpr hnil
    obtain ⟨ha, hb, -, hc⟩ := (spsc_delete_core h2 hw hr hlen b).2 h0
    exact ⟨ha, hb, hc⟩

/-- C10 witness: size 3 (not a power of two) at the initial state, with the
init conjunct instantiated at size 1. -/
theorem spsc_any_size_fifo_witness :
    ((ds_spsc_init 1 true).1 = DS_ERROR_INVALID ↔ 1 < 2) ∧
    (spscContents ⟨0, 0, 3, List.replicate 3 (0, 0)⟩).length ≤ 3 - 1 ∧
    ((spscContents ⟨0, 0, 3, List.replicate 3 (0, 0)⟩).length < 3 - 1 →
      (ds_spsc_insert ⟨0, 0, 3, List.replicate 3 (0, 0)⟩ 1 2).1 = DS_SUCCESS ∧
      spscContents (ds_spsc_insert ⟨0, 0, 3, List.replicate 3 (0, 0)⟩ 1 2).2 =
        spscContents ⟨0, 0, 3, List.replicate 3 (0, 0)⟩ ++ [(1, 2)]) ∧
    ((spscContents ⟨0, 0, 3, List.replicate 3 (0, 0)⟩).length = 3 - 1 →
      (ds_spsc_insert ⟨0, 0, 3, List.replicate 3 (0, 0)⟩ 1 2).1 = DS_ERROR_FULL ∧
      (ds_spsc_insert ⟨0, 0, 3, List.replicate 3 (0, 0)⟩ 1 2).2 =
        ⟨0, 0, 3, List.replicate 3 (0, 0)⟩) ∧
    (spscContents ⟨0, 0, 3, List.replicate 3 (0, 0)⟩ = [] →
      (ds_spsc_delete ⟨0, 0, 3, List.replicate 3 (0, 0)⟩ false).1 = DS_ERROR_NOT_FOUND ∧
      (ds_spsc_delete ⟨0, 0, 3, List.replicate 3 (0, 0)⟩ false).2.2 =
        ⟨0, 0, 3, List.replicate 3 (0, 0)⟩) ∧
    (spscContents ⟨0, 0, 3, List.replicate 3 (0, 0)⟩ ≠ [] →
      (ds_spsc_delete ⟨0, 0, 3, List.replicate 3 (0, 0)⟩ false).1 = DS_SUCCESS ∧
      (false = false →
        (ds_spsc_delete ⟨0, 0, 3, List.replicate 3 (0, 0)⟩ false).2.1 =
          (spscContents ⟨0, 0, 3, List.replicate 3 (0, 0)⟩).head?) ∧
      spscContents (ds_spsc_delete ⟨0, 0, 3, List.replicate 3 (0, 0)⟩ false).2.2 =
        (spscContents ⟨0, 0, 3, List.replicate 3 (0, 0)⟩).tail) :=
  spsc_any_size_fifo 3 ⟨0, 0, 3, List.replicate 3 (0, 0)⟩ 1 2 1 false true
    (by norm_num) SpscReach.init
